import Mathlib

/-!
Pepper noise meter: signal-to-state pipeline.

Shallow embedding of `firmware/main/main.c`.

Conventions of the embedding:

* C `float` and `double` values are idealised as exact rationals (`ℚ`); every
  arithmetic operation is exact.  The thresholds `45.0`, `60.0`, `2.0`, `30.0`,
  `120.0`, `-96.0` are exactly representable in binary32; `-50.9f` and `0.15f`
  are taken at their decimal value.
* The libm functions `sqrt` and `log10` are not part of the repository; they
  are parameters of the functions that call them.
* `int` globals are `Int`; C remainder is `Int.tmod`; an out-of-bounds array
  access or a signed overflow makes the step return `none`.
* `xSemaphoreTake(...) == pdTRUE` is an input flag of the step that performs it.
-/

namespace Pepper

/-! ## Constants (main.c 16-34) -/

def DBFS_FLOOR : ℚ := -96
def DBFS_CEIL : ℚ := 0
def SPL_EST_MIN : ℚ := 30
def SPL_EST_MAX : ℚ := 120
def DISPLAY_SMOOTH_ALPHA : ℚ := 15 / 100
def MIC_SAMPLE_RATE_HZ : Nat := 22050
def MIC_READ_SAMPLES : Nat := 512
def RMS_WINDOW_MS : Nat := 300

def SPL_CAL_REF_DBFS : ℚ := -509 / 10
def SPL_CAL_REF_DB : ℚ := 60

def SPL_THRESHOLD_SLEEPY : ℚ := 45
def SPL_THRESHOLD_DIZZY : ℚ := 60
def SPL_HYSTERESIS_DB : ℚ := 2

/-- Largest value of a 32-bit C `int`. -/
def INT_MAX : Int := 2147483647

/-- The enum `anim_set_t` (main.c 36-40). -/
inductive anim_set_t where
  | ANIM_SET_SLEEPY
  | ANIM_SET_WORK
  | ANIM_SET_DIZZY
  deriving DecidableEq, Repr

open anim_set_t

/-- The nine image resources declared in `pepper_frames.h`. -/
inductive pepper_img_dsc_t where
  | sleepy_0 | sleepy_1 | sleepy_2
  | work_0 | work_1 | work_2
  | dizzy_0 | dizzy_1 | dizzy_2
  deriving DecidableEq, Repr

/-! ## Level estimator -/

/-- `clampf` (main.c 52-61). -/
def clampf (v lo hi : ℚ) : ℚ :=
  if v < lo then lo
  else if v > hi then hi
  else v

/-- `rms_to_dbfs` (main.c 63-71); `log10` is the libm function. -/
def rms_to_dbfs (log10 : ℚ → ℚ) (rms : ℚ) : ℚ :=
  if rms < 1 then DBFS_FLOOR
  else
    let dbfs := 20 * log10 (rms / 32768)
    clampf dbfs DBFS_FLOOR DBFS_CEIL

/-- `rms_window_samples` (main.c 73-80); the product and quotient are `uint32_t`. -/
def rms_window_samples : Nat :=
  let samples := ((MIC_SAMPLE_RATE_HZ * RMS_WINDOW_MS) % 2 ^ 32) / 1000
  if samples < MIC_READ_SAMPLES then MIC_READ_SAMPLES else samples

/-- `dbfs_to_db_spl_est` (main.c 82-86). -/
def dbfs_to_db_spl_est (dbfs : ℚ) : ℚ :=
  let offset := SPL_CAL_REF_DB - SPL_CAL_REF_DBFS
  clampf (dbfs + offset) SPL_EST_MIN SPL_EST_MAX

/-- Accumulator of the capture loop together with the shared smoothed estimate
(locals `rms_sum_sq`, `rms_count` of `mic_task` and the global `g_db_spl`). -/
structure MicState where
  rms_sum_sq : ℚ
  rms_count : Nat
  g_db_spl : ℚ

/-- State on entry to the capture loop: empty accumulator, `g_db_spl = 50.0f`
(main.c 46, 273-274). -/
def mic_task_init : MicState :=
  { rms_sum_sq := 0, rms_count := 0, g_db_spl := 50 }

/-- What one loop iteration receives from its collaborators: whether
`esp_codec_dev_read` returned `ESP_CODEC_DEV_OK`, the block it filled
(`samples i` for `i < MIC_READ_SAMPLES`), and whether the blocking
`xSemaphoreTake` returned `pdTRUE`. -/
structure MicRead where
  ret_ok : Bool
  samples : Nat → Int
  took : Bool

/-- The `for` loop of main.c 313-316: add the square of each sample of the block
to the running sum. -/
def sum_squares (samples : Nat → Int) (rms_sum_sq : ℚ) : ℚ :=
  (List.range MIC_READ_SAMPLES).foldl
    (fun acc i => acc + (samples i : ℚ) * (samples i : ℚ)) rms_sum_sq

/-- One iteration of the `while (1)` loop of `mic_task` (main.c 305-334).  The
second component is the reading `rms` of the window closed by this iteration,
if any.  `rms_count` never exceeds 6655 on a run from `mic_task_init`, so the
`size_t` addition is not reduced modulo 2^32. -/
def mic_task_iter (sqrt log10 : ℚ → ℚ) (r : MicRead) (st : MicState) : MicState × Option ℚ :=
  if !r.ret_ok then (st, none)
  else
    let rms_sum_sq := sum_squares r.samples st.rms_sum_sq
    let rms_count := st.rms_count + MIC_READ_SAMPLES
    if rms_count < rms_window_samples then
      ({ st with rms_sum_sq := rms_sum_sq, rms_count := rms_count }, none)
    else
      let rms := sqrt (rms_sum_sq / (rms_count : ℚ))
      let dbfs := rms_to_dbfs log10 rms
      let db_spl := dbfs_to_db_spl_est dbfs
      let g := if r.took then st.g_db_spl + DISPLAY_SMOOTH_ALPHA * (db_spl - st.g_db_spl)
               else st.g_db_spl
      ({ rms_sum_sq := 0, rms_count := 0, g_db_spl := g }, some rms)

/-- The capture loop run over a finite sequence of iterations. -/
def mic_task_loop (sqrt log10 : ℚ → ℚ) : List MicRead → MicState → MicState
  | [], st => st
  | r :: rs, st => mic_task_loop sqrt log10 rs (mic_task_iter sqrt log10 r st).1

/-- Integer part of the base-10 logarithm: a monotone function used to
instantiate the `log10` parameter on concrete inputs. -/
def log10_floor (x : ℚ) : ℚ := (Int.log 10 x : ℚ)

/-! ## Mood classifier -/

/-- `choose_anim_set` (main.c 88-115). -/
def choose_anim_set (db_spl : ℚ) (mic_ready : Bool) (current_set : anim_set_t) : anim_set_t :=
  if !mic_ready then ANIM_SET_WORK
  else
    match current_set with
    | ANIM_SET_SLEEPY =>
      if db_spl ≥ SPL_THRESHOLD_SLEEPY + SPL_HYSTERESIS_DB then ANIM_SET_WORK
      else ANIM_SET_SLEEPY
    | ANIM_SET_DIZZY =>
      if db_spl ≤ SPL_THRESHOLD_DIZZY - SPL_HYSTERESIS_DB then ANIM_SET_WORK
      else ANIM_SET_DIZZY
    | ANIM_SET_WORK =>
      if db_spl ≤ SPL_THRESHOLD_SLEEPY - SPL_HYSTERESIS_DB then ANIM_SET_SLEEPY
      else if db_spl ≥ SPL_THRESHOLD_DIZZY + SPL_HYSTERESIS_DB then ANIM_SET_DIZZY
      else ANIM_SET_WORK

/-! ## Frame sequencer -/

/-- `get_frames_for_set` (main.c 117-150): the frame table of a mood and its
element count. -/
def get_frames_for_set (set : anim_set_t) : List pepper_img_dsc_t × Nat :=
  match set with
  | ANIM_SET_SLEEPY =>
    let sleepy_frames := [pepper_img_dsc_t.sleepy_0, pepper_img_dsc_t.sleepy_1,
      pepper_img_dsc_t.sleepy_2]
    (sleepy_frames, sleepy_frames.length)
  | ANIM_SET_DIZZY =>
    let dizzy_frames := [pepper_img_dsc_t.dizzy_0, pepper_img_dsc_t.dizzy_1,
      pepper_img_dsc_t.dizzy_2]
    (dizzy_frames, dizzy_frames.length)
  | ANIM_SET_WORK =>
    let work_frames := [pepper_img_dsc_t.work_0, pepper_img_dsc_t.work_1,
      pepper_img_dsc_t.work_2]
    (work_frames, work_frames.length)

/-- C array read `xs[i]` with an `int` index; `none` outside the array. -/
def c_index {α : Type} (xs : List α) (i : Int) : Option α :=
  if 0 ≤ i then xs[i.toNat]? else none

/-- The table `frame_seq` of `anim_timer_cb` (main.c 208). -/
def frame_seq : List Nat := [0, 1, 2, 1]

/-- Presentation-side globals: `g_anim_set`, `g_anim_idx`, `g_anim_phase`, and the
image source last given to `set_image_src`. -/
structure UiState where
  g_anim_set : anim_set_t
  g_anim_idx : Int
  g_anim_phase : Int
  g_img_src : pepper_img_dsc_t
  deriving DecidableEq, Repr

/-- Globals after `ui_create`: mood Work, index 0, phase 0, image `img_work_0`
(main.c 48-50, 242). -/
def ui_init : UiState :=
  { g_anim_set := ANIM_SET_WORK, g_anim_idx := 0, g_anim_phase := 0,
    g_img_src := pepper_img_dsc_t.work_0 }

/-- What one animation tick meets: whether `xSemaphoreTake(g_state_mutex, 0)`
returned `pdTRUE`, and the shared `g_db_spl` and `g_mic_ready` at that moment. -/
structure AnimTick where
  took : Bool
  g_db_spl : ℚ
  g_mic_ready : Bool

/-- The local `desired` of `anim_timer_cb` (main.c 199-209): the locals `db_spl`
and `mic_ready` start as `50.0f` and `false` and are overwritten only when the
semaphore was taken. -/
def anim_desired (t : AnimTick) (current_set : anim_set_t) : anim_set_t :=
  let db_spl : ℚ := if t.took then t.g_db_spl else 50
  let mic_ready : Bool := if t.took then t.g_mic_ready else false
  choose_anim_set db_spl mic_ready current_set

/-- `anim_timer_cb` (main.c 195-229). -/
def anim_timer_cb (t : AnimTick) (st : UiState) : Option UiState :=
  let desired := anim_desired t st.g_anim_set
  if desired ≠ st.g_anim_set then
    let frames := (get_frames_for_set desired).1
    match c_index frames 0 with
    | none => none
    | some img =>
      some { g_anim_set := desired, g_anim_idx := 0, g_anim_phase := 0, g_img_src := img }
  else
    let frames := (get_frames_for_set st.g_anim_set).1
    let frame_count := (get_frames_for_set st.g_anim_set).2
    if st.g_anim_phase + 1 > INT_MAX then none
    else
      let phase := Int.tmod (st.g_anim_phase + 1) (frame_seq.length : Int)
      match c_index frame_seq phase with
      | none => none
      | some v =>
        let idx : Int := if (v : Int) ≥ (frame_count : Int) then (frame_count : Int) - 1 else (v : Int)
        match c_index frames idx with
        | none => none
        | some img =>
          some { st with g_anim_idx := idx, g_anim_phase := phase, g_img_src := img }

/-- A finite run of animation ticks; `none` once a tick has no defined result. -/
def anim_run : List AnimTick → UiState → Option UiState
  | [], st => some st
  | t :: ts, st => (anim_timer_cb t st).bind (anim_run ts)

/-- Mood held after the first `k` ticks of a run. -/
def mood_after (ticks : List AnimTick) (st : UiState) (k : Nat) : Option anim_set_t :=
  (anim_run (ticks.take k) st).map UiState.g_anim_set

/-- Cursor invariant of the frame sequencer: the phase indexes `frame_seq`. -/
def phase_ok (st : UiState) : Prop :=
  0 ≤ st.g_anim_phase ∧ st.g_anim_phase < 4

instance (st : UiState) : Decidable (phase_ok st) := by
  unfold phase_ok; infer_instance

/-- The most recent successful read in a chronological history of ticks, as the
specification's "last known estimate and readiness". -/
def last_successful_read : List AnimTick → Option (ℚ × Bool)
  | [] => none
  | t :: ts =>
    match last_successful_read ts with
    | some v => some v
    | none => if t.took then some (t.g_db_spl, t.g_mic_ready) else none

/-- The transition function as the specification words it (section 4.3), with the
literal boundaries 47.0, 58.0, 43.0 and 62.0. -/
def spec_next_mood (spl : ℚ) (ready : Bool) (current : anim_set_t) : anim_set_t :=
  if ready = false then ANIM_SET_WORK
  else
    match current with
    | ANIM_SET_SLEEPY => if 47 ≤ spl then ANIM_SET_WORK else ANIM_SET_SLEEPY
    | ANIM_SET_DIZZY => if spl ≤ 58 then ANIM_SET_WORK else ANIM_SET_DIZZY
    | ANIM_SET_WORK =>
      if spl ≤ 43 then ANIM_SET_SLEEPY
      else if 62 ≤ spl then ANIM_SET_DIZZY
      else ANIM_SET_WORK

/-- The translation as the specification words it (section 8):
`clamp(dbfs + 111.9, 30.0, 120.0)`. -/
def spec_dbfs_to_spl (dbfs : ℚ) : ℚ :=
  clampf (dbfs + 1119 / 10) 30 120

/-! ## Theorems -/

/-- C1: `choose_anim_set` equals the specified transition function for every
current mood, every SPL value and every readiness flag. -/
theorem choose_anim_set_eq_spec (db_spl : ℚ) (mic_ready : Bool) (current_set : anim_set_t) :
    choose_anim_set db_spl mic_ready current_set = spec_next_mood db_spl mic_ready current_set := by
  unfold choose_anim_set spec_next_mood SPL_THRESHOLD_SLEEPY SPL_THRESHOLD_DIZZY SPL_HYSTERESIS_DB
  cases mic_ready <;> cases current_set <;> norm_num

/-- C2 (as stated, refuted): from Work with the mic ready, a classifier step with
SPL = 44 does not yield Sleepy; the mood stays Work. -/
theorem hysteresis_44_stays_work :
    choose_anim_set 44 true ANIM_SET_WORK = ANIM_SET_WORK ∧
    choose_anim_set 44 true ANIM_SET_WORK ≠ ANIM_SET_SLEEPY := by
  have h : choose_anim_set 44 true ANIM_SET_WORK = ANIM_SET_WORK := by
    unfold choose_anim_set SPL_THRESHOLD_SLEEPY SPL_THRESHOLD_DIZZY SPL_HYSTERESIS_DB
    norm_num
  exact ⟨h, by rw [h]; decide⟩

/-- C2 (amended): with the mic ready and starting in Work, a step with SPL = 44
keeps Work; a step with SPL = 43 yields Sleepy, a following step with SPL = 46
yields Sleepy, and a following step with SPL = 47 yields Work. -/
theorem hysteresis_trace_sleepy_boundary :
    choose_anim_set 44 true ANIM_SET_WORK = ANIM_SET_WORK ∧
    choose_anim_set 43 true ANIM_SET_WORK = ANIM_SET_SLEEPY ∧
    choose_anim_set 46 true (choose_anim_set 43 true ANIM_SET_WORK) = ANIM_SET_SLEEPY ∧
    choose_anim_set 47 true
      (choose_anim_set 46 true (choose_anim_set 43 true ANIM_SET_WORK)) = ANIM_SET_WORK := by
  have h43 : choose_anim_set 43 true ANIM_SET_WORK = ANIM_SET_SLEEPY := by
    unfold choose_anim_set SPL_THRESHOLD_SLEEPY SPL_THRESHOLD_DIZZY SPL_HYSTERESIS_DB
    norm_num
  have h46 : choose_anim_set 46 true ANIM_SET_SLEEPY = ANIM_SET_SLEEPY := by
    unfold choose_anim_set SPL_THRESHOLD_SLEEPY SPL_HYSTERESIS_DB
    norm_num
  have h47 : choose_anim_set 47 true ANIM_SET_SLEEPY = ANIM_SET_WORK := by
    unfold choose_anim_set SPL_THRESHOLD_SLEEPY SPL_HYSTERESIS_DB
    norm_num
  refine ⟨?_, h43, ?_, ?_⟩
  · unfold choose_anim_set SPL_THRESHOLD_SLEEPY SPL_THRESHOLD_DIZZY SPL_HYSTERESIS_DB
    norm_num
  · rw [h43, h46]
  · rw [h43, h46, h47]

/-- C3 (as stated, refuted): at the calibration point -50.9 dBFS the code returns
60.0 dB, whereas `clamp(dbfs + 111.9, 30, 120)` is 61.0 dB. -/
theorem dbfs_to_db_spl_est_ne_spec :
    dbfs_to_db_spl_est (-509 / 10) = 60 ∧ spec_dbfs_to_spl (-509 / 10) = 61 ∧
    dbfs_to_db_spl_est (-509 / 10) ≠ spec_dbfs_to_spl (-509 / 10) := by
  have h1 : dbfs_to_db_spl_est (-509 / 10) = 60 := by
    unfold dbfs_to_db_spl_est clampf SPL_CAL_REF_DB SPL_CAL_REF_DBFS SPL_EST_MIN SPL_EST_MAX
    norm_num
  have h2 : spec_dbfs_to_spl (-509 / 10) = 61 := by
    unfold spec_dbfs_to_spl clampf
    norm_num
  exact ⟨h1, h2, by rw [h1, h2]; norm_num⟩

/-- C3 (amended): for every dBFS input, `dbfs_to_db_spl_est dbfs` is
`clamp(dbfs + 110.9, 30.0, 120.0)`, the offset being 60.0 - (-50.9) = 110.9. -/
theorem dbfs_to_db_spl_est_eq (dbfs : ℚ) :
    dbfs_to_db_spl_est dbfs = clampf (dbfs + 1109 / 10) 30 120 ∧
    SPL_CAL_REF_DB - SPL_CAL_REF_DBFS = 1109 / 10 := by
  have h : SPL_CAL_REF_DB - SPL_CAL_REF_DBFS = 1109 / 10 := by
    unfold SPL_CAL_REF_DB SPL_CAL_REF_DBFS
    norm_num
  refine ⟨?_, h⟩
  unfold dbfs_to_db_spl_est
  simp only [h, SPL_EST_MIN, SPL_EST_MAX]


/-! ### Helper lemmas -/

theorem choose_anim_set_not_ready (db_spl : ℚ) (cur : anim_set_t) :
    choose_anim_set db_spl false cur = ANIM_SET_WORK := by
  simp [choose_anim_set]

theorem anim_desired_not_took (spl : ℚ) (ready : Bool) (cur : anim_set_t) :
    anim_desired ⟨false, spl, ready⟩ cur = ANIM_SET_WORK := by
  simp [anim_desired, choose_anim_set]

theorem frames_zero (set : anim_set_t) :
    c_index (get_frames_for_set set).1 0 = (get_frames_for_set set).1.head? := by
  cases set <;> rfl

/-- A tick that changes the mood resets the cursor. -/
theorem anim_timer_cb_change (t : AnimTick) (st : UiState)
    (h : anim_desired t st.g_anim_set ≠ st.g_anim_set) :
    anim_timer_cb t st =
      some { g_anim_set := anim_desired t st.g_anim_set, g_anim_idx := 0, g_anim_phase := 0,
             g_img_src := ((get_frames_for_set (anim_desired t st.g_anim_set)).1).getD 0
               pepper_img_dsc_t.work_0 } := by
  unfold anim_timer_cb
  simp only [h, ne_eq, not_false_eq_true, if_true]
  cases anim_desired t st.g_anim_set <;> rfl

/-- A tick that keeps the mood advances the phase and resolves the index. -/
theorem anim_timer_cb_same (t : AnimTick) (st : UiState)
    (h : anim_desired t st.g_anim_set = st.g_anim_set) (hp : phase_ok st) :
    anim_timer_cb t st =
      some { g_anim_set := st.g_anim_set,
             g_anim_idx := ((frame_seq.getD ((st.g_anim_phase + 1) % 4).toNat 0 : Nat) : Int),
             g_anim_phase := (st.g_anim_phase + 1) % 4,
             g_img_src := ((get_frames_for_set st.g_anim_set).1).getD
               (frame_seq.getD ((st.g_anim_phase + 1) % 4).toNat 0) pepper_img_dsc_t.work_0 } := by
  obtain ⟨set, idx, phase, img⟩ := st
  obtain ⟨h0, h4⟩ := hp
  simp only at h h0 h4
  unfold anim_timer_cb
  simp only [h, ne_eq, not_true_eq_false, if_false]
  interval_cases phase <;> cases set <;> decide


theorem anim_timer_cb_mood (t : AnimTick) (st st1 : UiState)
    (h : anim_timer_cb t st = some st1) :
    st1.g_anim_set = anim_desired t st.g_anim_set := by
  by_cases hd : anim_desired t st.g_anim_set = st.g_anim_set
  · unfold anim_timer_cb at h
    simp only [hd, ne_eq, not_true_eq_false, if_false] at h
    split_ifs at h
    split at h
    · exact absurd h (by simp)
    · split at h
      · exact absurd h (by simp)
      · simp only [Option.some.injEq] at h
        rw [← h, hd]
  · rw [anim_timer_cb_change t st hd] at h
    simp only [Option.some.injEq] at h
    rw [← h]

theorem anim_desired_no_direct (t : AnimTick) :
    anim_desired t ANIM_SET_SLEEPY ≠ ANIM_SET_DIZZY ∧
    anim_desired t ANIM_SET_DIZZY ≠ ANIM_SET_SLEEPY := by
  unfold anim_desired choose_anim_set
  constructor <;> (simp only []; split_ifs <;> decide)

theorem anim_run_append (l1 l2 : List AnimTick) (st : UiState) :
    anim_run (l1 ++ l2) st = (anim_run l1 st).bind (anim_run l2) := by
  induction l1 generalizing st with
  | nil => simp [anim_run]
  | cons t ts ih =>
    simp only [List.cons_append, anim_run]
    cases anim_timer_cb t st with
    | none => simp
    | some s => simp [ih]

theorem anim_run_take_succ (ticks : List AnimTick) (st : UiState) (k : Nat)
    (hk : k < ticks.length) :
    anim_run (ticks.take (k + 1)) st =
      (anim_run (ticks.take k) st).bind (anim_timer_cb (ticks.get ⟨k, hk⟩)) := by
  rw [List.take_succ, anim_run_append]
  congr 1
  funext s
  simp [List.getElem?_eq_getElem hk, anim_run]

theorem mood_after_of_length_le (ticks : List AnimTick) (st : UiState) (k : Nat)
    (hk : ticks.length ≤ k) :
    mood_after ticks st (k + 1) = mood_after ticks st k := by
  unfold mood_after
  rw [List.take_of_length_le hk, List.take_of_length_le (Nat.le_succ_of_le hk)]

/-- Consecutive moods of a run are related by one classifier step or are equal. -/
theorem mood_after_step (ticks : List AnimTick) (st : UiState) (k : Nat) (a b : anim_set_t)
    (ha : mood_after ticks st k = some a) (hb : mood_after ticks st (k + 1) = some b) :
    b = a ∨ ∃ t, b = anim_desired t a := by
  by_cases hk : k < ticks.length
  · right
    refine ⟨ticks.get ⟨k, hk⟩, ?_⟩
    unfold mood_after at ha hb
    rw [anim_run_take_succ ticks st k hk] at hb
    cases hrun : anim_run (ticks.take k) st with
    | none => rw [hrun] at ha; simp at ha
    | some s =>
      rw [hrun] at ha hb
      simp only [Option.map_some', Option.some.injEq, Option.some_bind] at ha hb
      cases hcb : anim_timer_cb (ticks.get ⟨k, hk⟩) s with
      | none => rw [hcb] at hb; simp at hb
      | some s1 =>
        rw [hcb] at hb
        simp only [Option.map_some', Option.some.injEq] at hb
        rw [← hb, ← ha]
        exact anim_timer_cb_mood _ _ _ hcb
  · left
    rw [mood_after_of_length_le ticks st k (Nat.le_of_not_lt hk)] at hb
    rw [ha] at hb
    exact (Option.some.inj hb).symm

theorem mood_after_pred_some (ticks : List AnimTick) (st : UiState) (k : Nat) (b : anim_set_t)
    (hb : mood_after ticks st (k + 1) = some b) :
    ∃ a, mood_after ticks st k = some a := by
  by_cases hk : k < ticks.length
  · unfold mood_after at hb ⊢
    rw [anim_run_take_succ ticks st k hk] at hb
    cases hrun : anim_run (ticks.take k) st with
    | none => rw [hrun] at hb; simp at hb
    | some s => exact ⟨s.g_anim_set, rfl⟩
  · rw [mood_after_of_length_le ticks st k (Nat.le_of_not_lt hk)] at hb
    exact ⟨b, hb⟩

/-- In a mood sequence without a direct step from `x` to `y`, where every mood
is `x`, `y` or Work, a Work entry separates an `x` entry from a later `y`. -/
theorem work_between (m : Nat → Option anim_set_t) (x y : anim_set_t) (hxy : x ≠ y)
    (hall : ∀ z : anim_set_t, z = x ∨ z = y ∨ z = ANIM_SET_WORK)
    (hstep : ∀ k, m k = some x → m (k + 1) ≠ some y)
    (hpre : ∀ k b, m (k + 1) = some b → ∃ a, m k = some a) :
    ∀ d i, m i = some x → m (i + 1 + d) = some y →
      ∃ k, i < k ∧ k < i + 1 + d ∧ m k = some ANIM_SET_WORK := by
  have hpre_many : ∀ d i b, m (i + d) = some b → ∃ a, m i = some a := by
    intro d
    induction d with
    | zero => intro i b h; exact ⟨b, h⟩
    | succ d ih =>
      intro i b h
      obtain ⟨a, ha⟩ := hpre (i + d) b h
      exact ih i a ha
  intro d
  induction d with
  | zero =>
    intro i hi hj
    exact absurd hj (hstep i hi)
  | succ d ih =>
    intro i hi hj
    obtain ⟨z, hz⟩ := hpre_many (d + 1) (i + 1) y hj
    rcases hall z with rfl | rfl | rfl
    · have hj2 : m (i + 1 + 1 + d) = some y := by
        rw [← hj]; congr 1; omega
      obtain ⟨k, hk1, hk2, hk3⟩ := ih (i + 1) hz hj2
      exact ⟨k, by omega, by omega, hk3⟩
    · exact absurd hz (hstep i hi)
    · exact ⟨i + 1, by omega, by omega, hz⟩


/-- A run of ticks that never changes the mood keeps the cursor on the ping-pong
sequence. -/
theorem anim_run_same (ticks : List AnimTick) :
    ∀ st : UiState, phase_ok st →
      (∀ t ∈ ticks, anim_desired t st.g_anim_set = st.g_anim_set) →
      st.g_anim_idx = ((frame_seq.getD st.g_anim_phase.toNat 0 : Nat) : Int) →
      ∃ st1, anim_run ticks st = some st1 ∧ st1.g_anim_set = st.g_anim_set ∧
        st1.g_anim_phase = (st.g_anim_phase + (ticks.length : Int)) % 4 ∧
        st1.g_anim_idx = ((frame_seq.getD st1.g_anim_phase.toNat 0 : Nat) : Int) := by
  induction ticks with
  | nil =>
    intro st hp _ hidx
    refine ⟨st, rfl, rfl, ?_, hidx⟩
    obtain ⟨h0, h4⟩ := hp
    simp only [List.length_nil, Nat.cast_zero, add_zero]
    omega
  | cons t ts ih =>
    intro st hp hsame hidx
    have ht : anim_desired t st.g_anim_set = st.g_anim_set := hsame t (List.mem_cons_self t ts)
    have hstep := anim_timer_cb_same t st ht hp
    obtain ⟨h0, h4⟩ := hp
    obtain ⟨st1, hrun, hset, hphase, hidx1⟩ :=
      ih { g_anim_set := st.g_anim_set,
           g_anim_idx := ((frame_seq.getD ((st.g_anim_phase + 1) % 4).toNat 0 : Nat) : Int),
           g_anim_phase := (st.g_anim_phase + 1) % 4,
           g_img_src := ((get_frames_for_set st.g_anim_set).1).getD
             (frame_seq.getD ((st.g_anim_phase + 1) % 4).toNat 0) pepper_img_dsc_t.work_0 }
        ⟨by simp only; omega, by simp only; omega⟩
        (fun u hu => hsame u (List.mem_cons_of_mem t hu))
        rfl
    refine ⟨st1, ?_, hset, ?_, hidx1⟩
    · simp only [anim_run, hstep, Option.some_bind]
      exact hrun
    · rw [hphase]
      simp only [List.length_cons, Nat.cast_add, Nat.cast_one]
      omega

theorem ping_pong_lookup (m : Nat) (hm : m < 4) :
    ([0, 1, 2, 1] : List Int)[m]? = some ((frame_seq.getD m 0 : Nat) : Int) := by
  interval_cases m <;> rfl


theorem anim_timer_cb_total (t : AnimTick) (st : UiState) (hp : phase_ok st) :
    ∃ st1, anim_timer_cb t st = some st1 ∧ phase_ok st1 := by
  by_cases hd : anim_desired t st.g_anim_set = st.g_anim_set
  · refine ⟨_, anim_timer_cb_same t st hd hp, ?_⟩
    obtain ⟨h0, h4⟩ := hp
    exact ⟨by simp only; omega, by simp only; omega⟩
  · exact ⟨_, anim_timer_cb_change t st hd, ⟨le_refl _, by norm_num⟩⟩

theorem anim_run_total (ticks : List AnimTick) :
    ∀ st : UiState, phase_ok st → ∃ st1, anim_run ticks st = some st1 ∧ phase_ok st1 := by
  induction ticks with
  | nil => intro st hp; exact ⟨st, rfl, hp⟩
  | cons t ts ih =>
    intro st hp
    obtain ⟨s, hs, hps⟩ := anim_timer_cb_total t st hp
    obtain ⟨s1, hs1, hps1⟩ := ih s hps
    exact ⟨s1, by simp only [anim_run, hs, Option.some_bind]; exact hs1, hps1⟩

theorem clampf_bounds (v lo hi : ℚ) (h : lo ≤ hi) :
    lo ≤ clampf v lo hi ∧ clampf v lo hi ≤ hi := by
  unfold clampf
  split_ifs with h1 h2
  · exact ⟨le_refl _, h⟩
  · exact ⟨h, le_refl _⟩
  · exact ⟨le_of_not_lt h1, le_of_not_lt h2⟩

theorem clampf_mono (a b lo hi : ℚ) (h : lo ≤ hi) (hab : a ≤ b) :
    clampf a lo hi ≤ clampf b lo hi := by
  unfold clampf
  split_ifs <;> linarith

theorem rms_window_samples_eq : rms_window_samples = 6615 := by
  unfold rms_window_samples MIC_SAMPLE_RATE_HZ RMS_WINDOW_MS MIC_READ_SAMPLES
  norm_num

theorem dbfs_to_db_spl_est_bounds (dbfs : ℚ) :
    30 ≤ dbfs_to_db_spl_est dbfs ∧ dbfs_to_db_spl_est dbfs ≤ 120 := by
  unfold dbfs_to_db_spl_est
  exact clampf_bounds _ SPL_EST_MIN SPL_EST_MAX (by unfold SPL_EST_MIN SPL_EST_MAX; norm_num)

/-- One loop iteration keeps the shared estimate inside [30, 120]. -/
theorem mic_task_iter_range (sqrt log10 : ℚ → ℚ) (r : MicRead) (st : MicState)
    (h : 30 ≤ st.g_db_spl ∧ st.g_db_spl ≤ 120) :
    30 ≤ (mic_task_iter sqrt log10 r st).1.g_db_spl ∧
    (mic_task_iter sqrt log10 r st).1.g_db_spl ≤ 120 := by
  obtain ⟨hlo, hhi⟩ := h
  obtain ⟨blo, bhi⟩ := dbfs_to_db_spl_est_bounds
    (rms_to_dbfs log10 (sqrt (sum_squares r.samples st.rms_sum_sq /
      ((st.rms_count + MIC_READ_SAMPLES : Nat) : ℚ))))
  unfold mic_task_iter
  by_cases h1 : (!r.ret_ok) = true
  · simp only [h1, if_true]
    exact ⟨hlo, hhi⟩
  · by_cases h2 : st.rms_count + MIC_READ_SAMPLES < rms_window_samples
    · simp only [h1, h2, if_true, if_false, Bool.false_eq_true]
      exact ⟨hlo, hhi⟩
    · by_cases h3 : r.took = true
      · simp only [h1, h2, h3, if_true, if_false, Bool.false_eq_true]
        unfold DISPLAY_SMOOTH_ALPHA
        constructor <;> linarith
      · simp only [h1, h2, h3, if_false, Bool.false_eq_true]
        exact ⟨hlo, hhi⟩

theorem mic_task_loop_range (sqrt log10 : ℚ → ℚ) (reads : List MicRead) :
    ∀ st : MicState, 30 ≤ st.g_db_spl ∧ st.g_db_spl ≤ 120 →
      30 ≤ (mic_task_loop sqrt log10 reads st).g_db_spl ∧
      (mic_task_loop sqrt log10 reads st).g_db_spl ≤ 120 := by
  induction reads with
  | nil => intro st h; exact h
  | cons r rs ih =>
    intro st h
    exact ih _ (mic_task_iter_range sqrt log10 r st h)

theorem log10_floor_mono (x y : ℚ) (hx : 0 < x) (hxy : x ≤ y) :
    log10_floor x ≤ log10_floor y := by
  unfold log10_floor
  exact_mod_cast Int.log_mono_right hx hxy

/-! ### Claims -/

/-- C4 (as stated, refuted): after a successful read of (40.0 dB, ready) has put
the mood to Sleepy, a tick whose read is unavailable chooses Work, whereas
`choose_anim_set` applied to the last read values and Sleepy gives Sleepy. -/
theorem unavailable_read_forgets_last_estimate :
    last_successful_read [⟨true, 40, true⟩] = some (40, true) ∧
    mood_after [⟨true, 40, true⟩, ⟨false, 40, true⟩] ui_init 1 = some ANIM_SET_SLEEPY ∧
    mood_after [⟨true, 40, true⟩, ⟨false, 40, true⟩] ui_init 2 = some ANIM_SET_WORK ∧
    choose_anim_set 40 true ANIM_SET_SLEEPY = ANIM_SET_SLEEPY ∧
    mood_after [⟨true, 40, true⟩, ⟨false, 40, true⟩] ui_init 2 ≠
      some (choose_anim_set 40 true ANIM_SET_SLEEPY) := by
  have hc : choose_anim_set 40 true ANIM_SET_SLEEPY = ANIM_SET_SLEEPY := by
    unfold choose_anim_set SPL_THRESHOLD_SLEEPY SPL_HYSTERESIS_DB
    norm_num
  have hd1 : anim_desired ⟨true, 40, true⟩ ANIM_SET_WORK = ANIM_SET_SLEEPY := by
    unfold anim_desired choose_anim_set SPL_THRESHOLD_SLEEPY SPL_HYSTERESIS_DB
    norm_num
  have h1 : anim_timer_cb ⟨true, 40, true⟩ ui_init =
      some ⟨ANIM_SET_SLEEPY, 0, 0, pepper_img_dsc_t.sleepy_0⟩ := by
    rw [anim_timer_cb_change _ _ (by rw [ui_init, hd1]; decide)]
    simp only [ui_init, hd1]
    rfl
  have h2 : anim_timer_cb ⟨false, 40, true⟩ ⟨ANIM_SET_SLEEPY, 0, 0, pepper_img_dsc_t.sleepy_0⟩ =
      some ⟨ANIM_SET_WORK, 0, 0, pepper_img_dsc_t.work_0⟩ := by
    rw [anim_timer_cb_change _ _ (by rw [anim_desired_not_took]; decide)]
    simp only [anim_desired_not_took]
    rfl
  have hm1 : mood_after [⟨true, 40, true⟩, ⟨false, 40, true⟩] ui_init 1 =
      some ANIM_SET_SLEEPY := by
    simp [mood_after, anim_run, h1]
  have hm2 : mood_after [⟨true, 40, true⟩, ⟨false, 40, true⟩] ui_init 2 =
      some ANIM_SET_WORK := by
    simp [mood_after, anim_run, h1, h2]
  refine ⟨by simp [last_successful_read], hm1, hm2, hc, ?_⟩
  rw [hm2, hc]
  decide

/-- C4 (amended): on every animation tick whose non-blocking read is unavailable
the mood is evaluated with the defaults SPL = 50.0 and readiness = false: for
every prior state with a valid cursor the tick succeeds and the mood chosen is
`choose_anim_set 50 false` of the prior mood, which is Work, whatever the shared
estimate and readiness are. -/
theorem unavailable_read_uses_defaults (spl : ℚ) (ready : Bool) (st : UiState)
    (hp : phase_ok st) :
    ∃ st1, anim_timer_cb ⟨false, spl, ready⟩ st = some st1 ∧
      st1.g_anim_set = choose_anim_set 50 false st.g_anim_set ∧
      st1.g_anim_set = ANIM_SET_WORK := by
  obtain ⟨st1, h1, _⟩ := anim_timer_cb_total ⟨false, spl, ready⟩ st hp
  have hm := anim_timer_cb_mood _ _ _ h1
  rw [anim_desired_not_took] at hm
  exact ⟨st1, h1, by rw [hm, choose_anim_set_not_ready], hm⟩

/-- Witness of C4 (amended): prior mood Sleepy, shared estimate 40.0 dB and ready. -/
theorem unavailable_read_uses_defaults_witness :
    phase_ok ⟨ANIM_SET_SLEEPY, 1, 1, pepper_img_dsc_t.sleepy_1⟩ ∧
    ∃ st1, anim_timer_cb ⟨false, 40, true⟩
        ⟨ANIM_SET_SLEEPY, 1, 1, pepper_img_dsc_t.sleepy_1⟩ = some st1 ∧
      st1.g_anim_set = choose_anim_set 50 false ANIM_SET_SLEEPY ∧
      st1.g_anim_set = ANIM_SET_WORK :=
  ⟨by decide, unavailable_read_uses_defaults 40 true
    ⟨ANIM_SET_SLEEPY, 1, 1, pepper_img_dsc_t.sleepy_1⟩ (by decide)⟩

/-- C5: from a cursor at phase 0 and frame 0, for every mood, after any number
`n` of consecutive animation ticks none of which changes the mood, the run
succeeds, the mood is unchanged and the resolved frame index is element
`n mod 4` of `[0, 1, 2, 1]`. -/
theorem frame_sequence_ping_pong (set : anim_set_t) (img : pepper_img_dsc_t)
    (ticks : List AnimTick) (hsame : ∀ t ∈ ticks, anim_desired t set = set) :
    ∃ st1, anim_run ticks ⟨set, 0, 0, img⟩ = some st1 ∧ st1.g_anim_set = set ∧
      ([0, 1, 2, 1] : List Int)[ticks.length % 4]? = some st1.g_anim_idx := by
  obtain ⟨st1, hrun, hset, hphase, hidx⟩ :=
    anim_run_same ticks ⟨set, 0, 0, img⟩ ⟨le_refl _, by norm_num⟩ hsame rfl
  refine ⟨st1, hrun, hset, ?_⟩
  have hlt : ticks.length % 4 < 4 := Nat.mod_lt _ (by decide)
  have hph : st1.g_anim_phase.toNat = ticks.length % 4 := by
    rw [hphase]
    simp only [zero_add]
    omega
  rw [hidx, hph]
  exact ping_pong_lookup _ hlt

/-- Witness of C5: mood Sleepy held by six ticks reading 40.0 dB; index 2. -/
theorem frame_sequence_ping_pong_witness :
    ∃ st1, anim_run (List.replicate 6 ⟨true, 40, true⟩)
        ⟨ANIM_SET_SLEEPY, 0, 0, pepper_img_dsc_t.sleepy_0⟩ = some st1 ∧
      st1.g_anim_set = ANIM_SET_SLEEPY ∧
      ([0, 1, 2, 1] : List Int)[(List.replicate 6 (⟨true, 40, true⟩ : AnimTick)).length % 4]? =
        some st1.g_anim_idx :=
  frame_sequence_ping_pong ANIM_SET_SLEEPY pepper_img_dsc_t.sleepy_0
    (List.replicate 6 ⟨true, 40, true⟩) (by
      intro t ht
      rw [List.eq_of_mem_replicate ht]
      unfold anim_desired choose_anim_set SPL_THRESHOLD_SLEEPY SPL_HYSTERESIS_DB
      norm_num)


/-- C8: one step of `choose_anim_set` from Sleepy never returns Dizzy and one
step from Dizzy never returns Sleepy, for every SPL input and readiness flag;
and along any run of animation ticks, between a tick that leaves the mood Sleepy
and a later tick that leaves it Dizzy (and vice versa) some tick leaves it Work.
From a valid cursor every tick of the run has a mood. -/
theorem no_direct_sleepy_dizzy :
    (∀ (db_spl : ℚ) (mic_ready : Bool),
      choose_anim_set db_spl mic_ready ANIM_SET_SLEEPY ≠ ANIM_SET_DIZZY ∧
      choose_anim_set db_spl mic_ready ANIM_SET_DIZZY ≠ ANIM_SET_SLEEPY) ∧
    (∀ (ticks : List AnimTick) (st : UiState) (i j : Nat), i < j →
      (mood_after ticks st i = some ANIM_SET_SLEEPY →
        mood_after ticks st j = some ANIM_SET_DIZZY →
        ∃ k, i < k ∧ k < j ∧ mood_after ticks st k = some ANIM_SET_WORK) ∧
      (mood_after ticks st i = some ANIM_SET_DIZZY →
        mood_after ticks st j = some ANIM_SET_SLEEPY →
        ∃ k, i < k ∧ k < j ∧ mood_after ticks st k = some ANIM_SET_WORK)) ∧
    (∀ (ticks : List AnimTick) (st : UiState), phase_ok st →
      ∀ k, ∃ m, mood_after ticks st k = some m) := by
  refine ⟨?_, ?_, ?_⟩
  · intro db_spl mic_ready
    unfold choose_anim_set
    constructor <;> (simp only []; split_ifs <;> decide)
  · intro ticks st i j hij
    obtain ⟨d, rfl⟩ : ∃ d, j = i + 1 + d := ⟨j - (i + 1), by omega⟩
    constructor
    · refine work_between (mood_after ticks st) ANIM_SET_SLEEPY ANIM_SET_DIZZY (by decide)
        (fun z => by cases z <;> simp) ?_ (mood_after_pred_some ticks st) d i
      intro k hk hk1
      rcases mood_after_step ticks st k _ _ hk hk1 with h | ⟨t, h⟩
      · exact absurd h (by decide)
      · exact (anim_desired_no_direct t).1 h.symm
    · refine work_between (mood_after ticks st) ANIM_SET_DIZZY ANIM_SET_SLEEPY (by decide)
        (fun z => by cases z <;> simp) ?_ (mood_after_pred_some ticks st) d i
      intro k hk hk1
      rcases mood_after_step ticks st k _ _ hk hk1 with h | ⟨t, h⟩
      · exact absurd h (by decide)
      · exact (anim_desired_no_direct t).2 h.symm
  · intro ticks st hp k
    obtain ⟨s, hs, _⟩ := anim_run_total (ticks.take k) st hp
    exact ⟨s.g_anim_set, by unfold mood_after; rw [hs]; rfl⟩

/-- Witness of C8: readings 40, 50, 70 dB from the initial state give the moods
Sleepy, Work, Dizzy after ticks 1, 2, 3. -/
theorem no_direct_sleepy_dizzy_witness :
    ∃ k, 1 < k ∧ k < 3 ∧
      mood_after [⟨true, 40, true⟩, ⟨true, 50, true⟩, ⟨true, 70, true⟩] ui_init k =
        some ANIM_SET_WORK :=
  (no_direct_sleepy_dizzy.2.1 [⟨true, 40, true⟩, ⟨true, 50, true⟩, ⟨true, 70, true⟩]
    ui_init 1 3 (by decide)).1
    (by
      have hd1 : anim_desired ⟨true, 40, true⟩ ANIM_SET_WORK = ANIM_SET_SLEEPY := by
        unfold anim_desired choose_anim_set SPL_THRESHOLD_SLEEPY SPL_HYSTERESIS_DB
        norm_num
      have h1 : anim_timer_cb ⟨true, 40, true⟩ ui_init =
          some ⟨ANIM_SET_SLEEPY, 0, 0, pepper_img_dsc_t.sleepy_0⟩ := by
        rw [anim_timer_cb_change _ _ (by rw [ui_init, hd1]; decide)]
        simp only [ui_init, hd1]
        rfl
      simp [mood_after, anim_run, h1])
    (by
      have hd1 : anim_desired ⟨true, 40, true⟩ ANIM_SET_WORK = ANIM_SET_SLEEPY := by
        unfold anim_desired choose_anim_set SPL_THRESHOLD_SLEEPY SPL_HYSTERESIS_DB
        norm_num
      have hd2 : anim_desired ⟨true, 50, true⟩ ANIM_SET_SLEEPY = ANIM_SET_WORK := by
        unfold anim_desired choose_anim_set SPL_THRESHOLD_SLEEPY SPL_HYSTERESIS_DB
        norm_num
      have hd3 : anim_desired ⟨true, 70, true⟩ ANIM_SET_WORK = ANIM_SET_DIZZY := by
        unfold anim_desired choose_anim_set SPL_THRESHOLD_SLEEPY SPL_THRESHOLD_DIZZY
          SPL_HYSTERESIS_DB
        norm_num
      have h1 : anim_timer_cb ⟨true, 40, true⟩ ui_init =
          some ⟨ANIM_SET_SLEEPY, 0, 0, pepper_img_dsc_t.sleepy_0⟩ := by
        rw [anim_timer_cb_change _ _ (by rw [ui_init, hd1]; decide)]
        simp only [ui_init, hd1]
        rfl
      have h2 : anim_timer_cb ⟨true, 50, true⟩
          ⟨ANIM_SET_SLEEPY, 0, 0, pepper_img_dsc_t.sleepy_0⟩ =
          some ⟨ANIM_SET_WORK, 0, 0, pepper_img_dsc_t.work_0⟩ := by
        rw [anim_timer_cb_change _ _ (by rw [hd2]; decide)]
        simp only [hd2]
        rfl
      have h3 : anim_timer_cb ⟨true, 70, true⟩
          ⟨ANIM_SET_WORK, 0, 0, pepper_img_dsc_t.work_0⟩ =
          some ⟨ANIM_SET_DIZZY, 0, 0, pepper_img_dsc_t.dizzy_0⟩ := by
        rw [anim_timer_cb_change _ _ (by rw [hd3]; decide)]
        simp only [hd3]
        rfl
      simp [mood_after, anim_run, h1, h2, h3])

/-- C9: on a tick where the newly chosen mood differs from the current mood, the
cursor afterwards holds the new mood with phase 0 and index 0 and the image is
frame 0 of the new mood's set, whatever the previous phase, index and image
were; on a tick where the chosen mood equals the current mood (valid cursor)
the tick succeeds and leaves the mood field unchanged. -/
theorem mood_change_reset (t : AnimTick) (st : UiState) :
    (anim_desired t st.g_anim_set ≠ st.g_anim_set →
      ∃ img, (get_frames_for_set (anim_desired t st.g_anim_set)).1[0]? = some img ∧
        anim_timer_cb t st =
          some { g_anim_set := anim_desired t st.g_anim_set, g_anim_idx := 0,
                 g_anim_phase := 0, g_img_src := img }) ∧
    (anim_desired t st.g_anim_set = st.g_anim_set → phase_ok st →
      ∃ st1, anim_timer_cb t st = some st1 ∧ st1.g_anim_set = st.g_anim_set) := by
  constructor
  · intro h
    refine ⟨_, ?_, anim_timer_cb_change t st h⟩
    cases anim_desired t st.g_anim_set <;> rfl
  · intro h hp
    exact ⟨_, anim_timer_cb_same t st h hp, rfl⟩

/-- Witness of C9: a 70 dB reading in Work at phase 2 / index 2 resets to Dizzy
frame 0; a 50 dB reading in Work at phase 2 keeps Work. -/
theorem mood_change_reset_witness :
    (∃ img, (get_frames_for_set
          (anim_desired ⟨true, 70, true⟩ ANIM_SET_WORK)).1[0]? = some img ∧
        anim_timer_cb ⟨true, 70, true⟩ ⟨ANIM_SET_WORK, 2, 2, pepper_img_dsc_t.work_2⟩ =
          some { g_anim_set := anim_desired ⟨true, 70, true⟩ ANIM_SET_WORK, g_anim_idx := 0,
                 g_anim_phase := 0, g_img_src := img }) ∧
    (∃ st1, anim_timer_cb ⟨true, 50, true⟩ ⟨ANIM_SET_WORK, 2, 2, pepper_img_dsc_t.work_2⟩ =
        some st1 ∧ st1.g_anim_set = ANIM_SET_WORK) :=
  ⟨(mood_change_reset ⟨true, 70, true⟩ ⟨ANIM_SET_WORK, 2, 2, pepper_img_dsc_t.work_2⟩).1 (by
      show anim_desired ⟨true, 70, true⟩ ANIM_SET_WORK ≠ ANIM_SET_WORK
      unfold anim_desired choose_anim_set SPL_THRESHOLD_SLEEPY SPL_THRESHOLD_DIZZY
        SPL_HYSTERESIS_DB
      norm_num
      decide),
   (mood_change_reset ⟨true, 50, true⟩ ⟨ANIM_SET_WORK, 2, 2, pepper_img_dsc_t.work_2⟩).2 (by
      show anim_desired ⟨true, 50, true⟩ ANIM_SET_WORK = ANIM_SET_WORK
      unfold anim_desired choose_anim_set SPL_THRESHOLD_SLEEPY SPL_THRESHOLD_DIZZY
        SPL_HYSTERESIS_DB
      norm_num) (by decide)⟩


/-- C6: the window target is max(512, round(22050 * 300 / 1000)) = 6615 samples;
in an iteration whose read succeeded, if the accumulated count (after adding the
block) is at most target - 1 no reading is produced and the accumulator keeps the
accumulated sum and count; if it has reached the target exactly one reading
`sqrt (sum / count)` is produced and the accumulator is reset to sum 0, count 0. -/
theorem window_closure (sqrt log10 : ℚ → ℚ) (r : MicRead) (st : MicState)
    (hok : r.ret_ok = true) :
    rms_window_samples = 6615 ∧
    rms_window_samples =
      max MIC_READ_SAMPLES
        (round (((MIC_SAMPLE_RATE_HZ : ℚ) * (RMS_WINDOW_MS : ℚ)) / 1000)).toNat ∧
    (st.rms_count + MIC_READ_SAMPLES ≤ rms_window_samples - 1 →
      mic_task_iter sqrt log10 r st =
        ({ rms_sum_sq := sum_squares r.samples st.rms_sum_sq,
           rms_count := st.rms_count + MIC_READ_SAMPLES,
           g_db_spl := st.g_db_spl }, none)) ∧
    (rms_window_samples ≤ st.rms_count + MIC_READ_SAMPLES →
      (mic_task_iter sqrt log10 r st).2 =
        some (sqrt (sum_squares r.samples st.rms_sum_sq /
          ((st.rms_count + MIC_READ_SAMPLES : Nat) : ℚ))) ∧
      (mic_task_iter sqrt log10 r st).1.rms_sum_sq = 0 ∧
      (mic_task_iter sqrt log10 r st).1.rms_count = 0) := by
  refine ⟨rms_window_samples_eq, ?_, ?_, ?_⟩
  · rw [rms_window_samples_eq]
    have hq : ((MIC_SAMPLE_RATE_HZ : ℚ) * (RMS_WINDOW_MS : ℚ)) / 1000 = ((6615 : ℤ) : ℚ) := by
      unfold MIC_SAMPLE_RATE_HZ RMS_WINDOW_MS
      norm_num
    rw [hq, round_intCast]
    decide
  · intro hlt
    rw [rms_window_samples_eq] at hlt
    have hlt2 : st.rms_count + MIC_READ_SAMPLES < rms_window_samples := by
      rw [rms_window_samples_eq]; omega
    unfold mic_task_iter
    simp only [hok, Bool.not_true, Bool.false_eq_true, if_false, hlt2, if_true]
  · intro hge
    have hge2 : ¬ st.rms_count + MIC_READ_SAMPLES < rms_window_samples := Nat.not_lt.mpr hge
    unfold mic_task_iter
    simp only [hok, Bool.not_true, Bool.false_eq_true, if_false, hge2, and_self]

/-- Witness of C6: with 5632 samples accumulated a block brings the count to
6144 and gives no reading; with 6144 accumulated a block brings it to 6656 and
closes the window. -/
theorem window_closure_witness :
    mic_task_iter (fun x => x) log10_floor ⟨true, fun _ => 100, true⟩ ⟨0, 5632, 50⟩ =
      ({ rms_sum_sq := sum_squares (fun _ => 100) 0,
         rms_count := 5632 + MIC_READ_SAMPLES,
         g_db_spl := 50 }, none) ∧
    ((mic_task_iter (fun x => x) log10_floor ⟨true, fun _ => 100, true⟩ ⟨0, 6144, 50⟩).2 =
        some ((fun x : ℚ => x) (sum_squares (fun _ => 100) 0 /
          ((6144 + MIC_READ_SAMPLES : Nat) : ℚ))) ∧
      (mic_task_iter (fun x => x) log10_floor ⟨true, fun _ => 100, true⟩
        ⟨0, 6144, 50⟩).1.rms_sum_sq = 0 ∧
      (mic_task_iter (fun x => x) log10_floor ⟨true, fun _ => 100, true⟩
        ⟨0, 6144, 50⟩).1.rms_count = 0) :=
  ⟨(window_closure (fun x => x) log10_floor ⟨true, fun _ => 100, true⟩ ⟨0, 5632, 50⟩ rfl).2.2.1
      (by decide),
   (window_closure (fun x => x) log10_floor ⟨true, fun _ => 100, true⟩ ⟨0, 6144, 50⟩ rfl).2.2.2
      (by decide)⟩

/-- C7: for every RMS input r < 1 `rms_to_dbfs` returns exactly -96; for every
r ≥ 1 the result is `clampf (20 * log10 (r / 32768)) (-96) 0` and lies in
[-96, 0]; and, `log10` being non-decreasing on positive arguments, the result is
non-decreasing in r on r ≥ 1. -/
theorem rms_to_dbfs_floored_bounded_monotone (log10 : ℚ → ℚ) :
    (∀ r : ℚ, r < 1 → rms_to_dbfs log10 r = -96) ∧
    (∀ r : ℚ, 1 ≤ r →
      rms_to_dbfs log10 r = clampf (20 * log10 (r / 32768)) (-96) 0 ∧
      -96 ≤ rms_to_dbfs log10 r ∧ rms_to_dbfs log10 r ≤ 0) ∧
    ((∀ x y : ℚ, 0 < x → x ≤ y → log10 x ≤ log10 y) →
      ∀ r1 r2 : ℚ, 1 ≤ r1 → r1 ≤ r2 → rms_to_dbfs log10 r1 ≤ rms_to_dbfs log10 r2) := by
  have hge : ∀ r : ℚ, 1 ≤ r →
      rms_to_dbfs log10 r = clampf (20 * log10 (r / 32768)) (-96) 0 := by
    intro r hr
    unfold rms_to_dbfs DBFS_FLOOR DBFS_CEIL
    simp only [not_lt.mpr hr, if_false]
  refine ⟨?_, ?_, ?_⟩
  · intro r hr
    unfold rms_to_dbfs DBFS_FLOOR
    simp only [hr, if_true]
  · intro r hr
    rw [hge r hr]
    exact ⟨rfl, clampf_bounds _ (-96) 0 (by norm_num)⟩
  · intro hmono r1 r2 h1 h12
    rw [hge r1 h1, hge r2 (le_trans h1 h12)]
    apply clampf_mono _ _ _ _ (by norm_num)
    have hpos : (0 : ℚ) < r1 / 32768 := by positivity
    have hle : r1 / 32768 ≤ r2 / 32768 := by
      apply div_le_div_of_nonneg_right h12 (by norm_num)
    have := hmono _ _ hpos hle
    linarith

/-- Witness of C7, with the integer part of the base-10 logarithm as `log10`. -/
theorem rms_to_dbfs_floored_bounded_monotone_witness :
    rms_to_dbfs log10_floor (1 / 2) = -96 ∧
    (rms_to_dbfs log10_floor 100 = clampf (20 * log10_floor (100 / 32768)) (-96) 0 ∧
      -96 ≤ rms_to_dbfs log10_floor 100 ∧ rms_to_dbfs log10_floor 100 ≤ 0) ∧
    rms_to_dbfs log10_floor 100 ≤ rms_to_dbfs log10_floor 1000 :=
  ⟨(rms_to_dbfs_floored_bounded_monotone log10_floor).1 (1 / 2) (by norm_num),
   (rms_to_dbfs_floored_bounded_monotone log10_floor).2.1 100 (by norm_num),
   (rms_to_dbfs_floored_bounded_monotone log10_floor).2.2 log10_floor_mono 100 1000
     (by norm_num) (by norm_num)⟩

/-- C10: starting from the initial value 50.0, after any sequence of capture-loop
iterations (any blocks, any read results, any `sqrt` and `log10`, hence any RMS
readings) the shared smoothed value `g_db_spl` lies in [30, 120]. -/
theorem g_db_spl_stays_in_range (sqrt log10 : ℚ → ℚ) (reads : List MicRead) :
    30 ≤ (mic_task_loop sqrt log10 reads mic_task_init).g_db_spl ∧
    (mic_task_loop sqrt log10 reads mic_task_init).g_db_spl ≤ 120 := by
  apply mic_task_loop_range
  unfold mic_task_init
  norm_num

end Pepper
